import Mathlib

/-
Verification of the VM-lifecycle subsystem of the agent-shell repository.

The repository ships two implementations of the VM manager:
  - the library variant in vm-manager/internal/libvirt/vm_manager.go
    (used by vm-manager/cmd/manager via the libvirt package), and
  - the standalone variant in vm-manager/cmd/manager/main.go
    (a self-contained package main with its own VMManager).

Both are embedded below.  Pure record transformations are modelled as Lean
functions; the Go maps (map[string]*VM, map[string]string) are modelled as
association lists with Go map semantics (insert overwrites, delete removes
the key); randomness (uuid.New, rand.Read, password generation) and clock
reads (time.Now) are passed in as explicit parameters; calls into libvirt,
the filesystem, and external commands are modelled by their observable
results (success/failure values, the argv of spawned commands, the set of
domain names the control plane knows).
-/

/- VM states, from the const block of both variants. -/

def VMStateCreating : String := "creating"

def VMStateRunning : String := "running"

def VMStateStopped : String := "stopped"

def VMStateError : String := "error"

def VMStateDestroying : String := "destroying"

def VMStateResetting : String := "resetting"

/-- VM record, from struct VM (library variant; the standalone variant has the
same fields with Ngrok/Ssh capitalisation differences).  Timestamps are
modelled as Nat clock readings. -/
structure VM where
  id : String
  taskId : String
  name : String
  state : String
  ipAddress : String
  createdAt : Nat
  updatedAt : Nat
  error : String
  ngrokUrl : String
  sshUsername : String
  sshPassword : String
deriving Repr, DecidableEq

/- Go map model: association lists where insert overwrites and delete removes
the key.  mapInsert puts the new binding in front after erasing old ones, so
lookup after insert sees the new value, exactly like a Go map write. -/

def mapLookup {κ α : Type} [DecidableEq κ] : List (κ × α) → κ → Option α
  | [], _ => none
  | (k', v) :: rest, k => if k' = k then some v else mapLookup rest k

def mapErase {κ α : Type} [DecidableEq κ] : List (κ × α) → κ → List (κ × α)
  | [], _ => []
  | (k', v) :: rest, k => if k' = k then mapErase rest k else (k', v) :: mapErase rest k

def mapInsert {κ α : Type} [DecidableEq κ] (l : List (κ × α)) (k : κ) (v : α) : List (κ × α) :=
  (k, v) :: mapErase l k

/-- The manager's two shared maps: vms (id → record) and taskToVMMap
(task id → vm id), from struct VMManager. -/
structure MgrState where
  vms : List (String × VM)
  taskToVMMap : List (String × String)
deriving Repr, DecidableEq

/-- The record built by CreateVM in the library variant: fresh uuid, name
derived from the first 8 characters of the id, state creating, username
"agent", freshly generated password, both timestamps set to now. -/
def mkCreatedVM (taskID freshID password : String) (now : Nat) : VM :=
  { id := freshID
    taskId := taskID
    name := "agent-vm-" ++ freshID.take 8
    state := VMStateCreating
    ipAddress := ""
    createdAt := now
    updatedAt := now
    error := ""
    ngrokUrl := ""
    sshUsername := "agent"
    sshPassword := password }

/-- CreateVM (library variant; the standalone variant has the same branch
structure).  freshID and password stand for the uuid.New() and random
password draws.  Returns the record handed to the caller, the new store
state, and whether a provisioning pipeline was launched (the branch that
finds an existing record returns before the go statement). -/
def CreateVM (s : MgrState) (taskID freshID password : String) (now : Nat) :
    Option VM × MgrState × Bool :=
  match mapLookup s.taskToVMMap taskID with
  | some vmID => (mapLookup s.vms vmID, s, false)
  | none =>
      let vm := mkCreatedVM taskID freshID password now
      (some vm,
       { vms := mapInsert s.vms freshID vm
         taskToVMMap := mapInsert s.taskToVMMap taskID freshID }, true)

/-- DestroyVM's net effect on the store (library variant).  The function
first saves the record with state destroying, then tears the domain and the
files down best-effort, and finally deletes the record from both maps and
removes its data file; the destroying snapshot does not survive the call, so
the net map effect is erasure of both entries. -/
def DestroyVM (s : MgrState) (vmID : String) : MgrState × Bool :=
  match mapLookup s.vms vmID with
  | none => (s, false)
  | some vm =>
      ({ vms := mapErase s.vms vmID
         taskToVMMap :=
           if vm.taskId = "" then s.taskToVMMap else mapErase s.taskToVMMap vm.taskId },
       true)

/-- ResetVM (library variant).  Looks the record up, saves it with state
resetting, then either simulates the reset in place (simulation mode: only
state and updatedAt change, ending at running) or destroys the VM and calls
CreateVM with the captured task id.  freshID and password are the fresh
identity draws consumed only by the rebuild path; t1 and t2 are the clock
readings of the two saves. -/
def ResetVM (s : MgrState) (simulation : Bool) (vmID freshID password : String)
    (t1 t2 : Nat) : MgrState × Bool :=
  match mapLookup s.vms vmID with
  | none => (s, false)
  | some vm =>
      let vm1 := { vm with state := VMStateResetting, updatedAt := t1 }
      let s1 : MgrState := { s with vms := mapInsert s.vms vmID vm1 }
      if simulation then
        let vm2 := { vm1 with state := VMStateRunning, updatedAt := t2 }
        ({ s1 with vms := mapInsert s1.vms vmID vm2 }, true)
      else
        match DestroyVM s1 vmID with
        | (s2, true) => ((CreateVM s2 vm.taskId freshID password t2).2.1, true)
        | (s2, false) => (s2, false)

/-- The startup verification applied by loadVMs to each parsed record
(library variant): outside simulation mode, with a live connection, a record
whose state is neither destroying nor error is looked up in libvirt by name;
if the lookup fails the record is marked error with the diagnostic
"VM not found in libvirt" and saved (saving bumps updatedAt).  liveNames is
the set of domain names the control plane knows. -/
def verifyLoadedVM (vm : VM) (simulation connAvailable : Bool)
    (liveNames : List String) (now : Nat) : VM :=
  if !simulation && connAvailable
      && vm.state != VMStateDestroying && vm.state != VMStateError then
    if liveNames.contains vm.name then vm
    else { vm with state := VMStateError, error := "VM not found in libvirt", updatedAt := now }
  else vm

/-- loadVMs adds each record to both maps: vms keyed by the record id, and
taskToVMMap only when the task id is non-empty. -/
def addLoadedVM (s : MgrState) (vm : VM) : MgrState :=
  { vms := mapInsert s.vms vm.id vm
    taskToVMMap :=
      if vm.taskId = "" then s.taskToVMMap else mapInsert s.taskToVMMap vm.taskId vm.id }

/- Persistence: saveVM serialises the record with encoding/json using the
struct tags; loadVMs reads every .json file back, skips files that fail to
parse, and verifies the rest.  The serialised document is modelled as a
JSON object: a key/value list over a small JSON value type. -/

inductive JValue where
  | str : String → JValue
  | num : Nat → JValue
deriving Repr, DecidableEq

/-- json.MarshalIndent of a VM record: fields in struct order, with the
omitempty tags of ip_address, error and ngrok_url dropping empty strings. -/
def encodeVM (vm : VM) : List (String × JValue) :=
  [("id", JValue.str vm.id), ("task_id", JValue.str vm.taskId),
   ("name", JValue.str vm.name), ("state", JValue.str vm.state)]
  ++ (if vm.ipAddress = "" then [] else [("ip_address", JValue.str vm.ipAddress)])
  ++ [("created_at", JValue.num vm.createdAt), ("updated_at", JValue.num vm.updatedAt)]
  ++ (if vm.error = "" then [] else [("error", JValue.str vm.error)])
  ++ (if vm.ngrokUrl = "" then [] else [("ngrok_url", JValue.str vm.ngrokUrl)])
  ++ [("ssh_username", JValue.str vm.sshUsername), ("ssh_password", JValue.str vm.sshPassword)]

/-- json.Unmarshal field access for a string field: a missing key yields the
zero value "", a key of the wrong kind is a decode error. -/
def getStrField (doc : List (String × JValue)) (key : String) : Option String :=
  match mapLookup doc key with
  | none => some ""
  | some (JValue.str s) => some s
  | some (JValue.num _) => none

/-- json.Unmarshal field access for a numeric (timestamp) field. -/
def getNumField (doc : List (String × JValue)) (key : String) : Option Nat :=
  match mapLookup doc key with
  | none => some 0
  | some (JValue.num n) => some n
  | some (JValue.str _) => none

/-- json.Unmarshal of a VM document, by struct tag. -/
def decodeVM (doc : List (String × JValue)) : Option VM := do
  let id ← getStrField doc "id"
  let taskId ← getStrField doc "task_id"
  let name ← getStrField doc "name"
  let state ← getStrField doc "state"
  let ipAddress ← getStrField doc "ip_address"
  let createdAt ← getNumField doc "created_at"
  let updatedAt ← getNumField doc "updated_at"
  let error ← getStrField doc "error"
  let ngrokUrl ← getStrField doc "ngrok_url"
  let sshUsername ← getStrField doc "ssh_username"
  let sshPassword ← getStrField doc "ssh_password"
  some { id := id, taskId := taskId, name := name, state := state, ipAddress := ipAddress,
         createdAt := createdAt, updatedAt := updatedAt, error := error, ngrokUrl := ngrokUrl,
         sshUsername := sshUsername, sshPassword := sshPassword }

/-- saveVM: bump UpdatedAt to now, then marshal the snapshot. -/
def saveVM (vm : VM) (now : Nat) : List (String × JValue) :=
  encodeVM { vm with updatedAt := now }

/-- loadVMs over the persisted documents: parse each file, skip parse
failures, verify the parsed record against the control plane, and add it to
the maps of a fresh manager. -/
def loadVMs (files : List (List (String × JValue))) (simulation connAvailable : Bool)
    (liveNames : List String) (now : Nat) : MgrState :=
  files.foldl
    (fun s doc =>
      match decodeVM doc with
      | none => s
      | some vm => addLoadedVM s (verifyLoadedVM vm simulation connAvailable liveNames now))
    { vms := [], taskToVMMap := [] }

/- Provisioning pipeline tails.  Both variants reach the IP-discovery step
with the domain defined and started; the remaining behaviour is a pure
function of the IP-discovery result and the tunnel result.  Except.error
carries the error message; the wait functions of both variants return
"timeout waiting for IP address" on deadline expiry. -/

/-- Library variant, provisionVM after the domain has started: a failed IP
wait calls setVMError (state error, error "Failed to get IP address: …") and
returns; a successful wait optionally sets up the tunnel (failure is only
logged) and saves the record running. -/
def provisionFinish_libvirt (vm : VM) (ipRes : Except String String)
    (ngrokConfigured : Bool) (ngrokRes : Except String String) (now : Nat) : VM :=
  match ipRes with
  | Except.error e =>
      { vm with state := VMStateError, error := "Failed to get IP address: " ++ e,
                updatedAt := now }
  | Except.ok ip =>
      let url := if ngrokConfigured then
          (match ngrokRes with
           | Except.ok u => u
           | Except.error _ => "")
        else ""
      { vm with state := VMStateRunning, ipAddress := ip, ngrokUrl := url, updatedAt := now }

/-- strings.HasPrefix, computed structurally on the character lists. -/
def hasPrefixStr (s pre : String) : Bool :=
  pre.data.isPrefixOf s.data

/-- Standalone variant, provisionVM after the domain has started: a failed IP
wait stores a "Warning: …" diagnostic and continues; the tunnel is attempted
only when an address was found, with failure likewise downgraded to a
warning; the final state is running unless the error field is non-empty and
does not start with "Warning:". -/
def provisionFinish_main (vm : VM) (ipRes : Except String String)
    (ngrokRes : Except String String) (now : Nat) : VM :=
  let vm1 := match ipRes with
    | Except.error e => { vm with error := "Warning: Could not determine IP address: " ++ e }
    | Except.ok ip => { vm with ipAddress := ip }
  let vm2 := match ipRes with
    | Except.error _ => vm1
    | Except.ok ip =>
        if ip = "" then vm1
        else match ngrokRes with
          | Except.error e =>
              { vm1 with error := "Warning: Could not establish ngrok tunnel: " ++ e }
          | Except.ok url => { vm1 with ngrokUrl := url }
  let st := if vm2.error != "" && !(hasPrefixStr vm2.error "Warning:") then VMStateError
            else VMStateRunning
  { vm2 with state := st, updatedAt := now }

/- Disk cloning.  Each variant spawns one external command; the argv is the
observable. -/

/-- cloneTemplateDisk (library variant): qemu-img create with the template as
copy-on-write backing file. -/
def cloneTemplateDisk_cmd (templatePath diskPath : String) : List String :=
  ["qemu-img", "create", "-f", "qcow2", "-F", "qcow2", "-b", templatePath, diskPath]

/-- Disk-clone command of the standalone variant's provisionVM: a plain cp of
the template. -/
def cloneDisk_main_cmd (templatePath diskPath : String) : List String :=
  ["cp", templatePath, diskPath]

/-- Scans an argv for the value following a "-b" flag. -/
def backingArg : List String → Option String
  | [] => none
  | a :: rest => if a = "-b" then rest.head? else backingArg rest

/-- Spec-side predicate (from the spec's words, for comparison with the two
clone commands): the clone command is a qemu-img invocation that declares the
template as its backing file. -/
def usesBackingFile (cmd : List String) (templatePath : String) : Bool :=
  cmd.head? == some "qemu-img" && backingArg cmd == some templatePath

/- MAC generation, identical in both variants. -/

/-- generateRandomMAC, returning the six octets of the formatted address.
randFail models rand.Read returning an error (fallback "52:54:00:00:00:01");
buf models the six random bytes.  The source masks buf[0] with
(buf[0] & 0xfe) | 0x02, but the format string "52:54:%02x:%02x:%02x:%02x"
emits a fixed 52:54 lead and only buf[2..5], so the masked byte never reaches
the output; the first octet of every produced address is 0x52. -/
def generateRandomMAC (randFail : Bool) (buf : Fin 6 → Nat) : List Nat :=
  if randFail then [0x52, 0x54, 0x00, 0x00, 0x00, 0x01]
  else
    [0x52, 0x54, buf 2 % 256, buf 3 % 256, buf 4 % 256, buf 5 % 256]

/-- Bit j of a MAC given as octet list: octet j / 8, bit j % 8 counted from
the least significant bit (0x01 = multicast flag = bit 0 of octet 0, 0x02 =
locally-administered flag = bit 1 of octet 0). -/
def macBit (mac : List Nat) (j : Nat) : Nat :=
  (mac.getD (j / 8) 0 >>> (j % 8)) &&& 1

/- Pointer-level model of the record store, for the copy-vs-reference claim.
The Go maps hold *VM pointers; records live in a heap keyed by pointer
value.  GetVM/GetVMByTask/ListVMs return the pointers held in the maps. -/

structure PtrStore where
  heap : List (Nat × VM)
  vms : List (String × Nat)
  taskToVMMap : List (String × String)
deriving Repr, DecidableEq

/-- GetVM on its simulation/early-return path: returns the pointer stored in
the vms map (Go: vm := m.vms[vmID]; return vm). -/
def GetVM_sim (s : PtrStore) (vmID : String) : Option Nat :=
  mapLookup s.vms vmID

/-- ListVMs: appends every pointer held in the vms map. -/
def ListVMs_ptrs (s : PtrStore) : List Nat :=
  s.vms.map (fun p => p.2)

/-- Reading the record a pointer refers to. -/
def derefVM (s : PtrStore) (p : Nat) : Option VM :=
  mapLookup s.heap p

/-- A caller mutating the record behind a pointer it was handed. -/
def writeVM (s : PtrStore) (p : Nat) (v : VM) : PtrStore :=
  { s with heap := mapInsert s.heap p v }

/-- The record the store holds for a vm id: the pointer in the map,
dereferenced. -/
def storedRecord (s : PtrStore) (vmID : String) : Option VM :=
  (mapLookup s.vms vmID).bind (derefVM s)

/-- Decidable index-consistency at one task id: if taskToVMMap maps the task
somewhere, the vms map has a record there. -/
def taskIndexConsistent (s : MgrState) (taskID : String) : Bool :=
  match mapLookup s.taskToVMMap taskID with
  | some i => (mapLookup s.vms i).isSome
  | none => true

/- Shared concrete records for witnesses and counterexamples. -/

def sampleVM : VM :=
  { id := "vm-1", taskId := "task-1", name := "agent-vm-vm-1", state := VMStateRunning,
    ipAddress := "", createdAt := 0, updatedAt := 0, error := "",
    ngrokUrl := "", sshUsername := "agent", sshPassword := "pw1" }

def sampleStore : MgrState :=
  { vms := [("vm-1", sampleVM)], taskToVMMap := [("task-1", "vm-1")] }

def samplePtrStore : PtrStore :=
  { heap := [(0, sampleVM)], vms := [("vm-1", 0)], taskToVMMap := [("task-1", "vm-1")] }

/- Helper lemmas about the Go-map model. -/

theorem mapLookup_mapErase_self {κ α : Type} [DecidableEq κ] (l : List (κ × α)) (k : κ) :
    mapLookup (mapErase l k) k = none := by
  induction l with
  | nil => rfl
  | cons hd tl ih =>
      obtain ⟨k', v⟩ := hd
      by_cases h : k' = k <;> simp [mapErase, mapLookup, h, ih]

theorem mapLookup_mapInsert_self {κ α : Type} [DecidableEq κ] (l : List (κ × α)) (k : κ)
    (v : α) : mapLookup (mapInsert l k v) k = some v := by
  simp [mapInsert, mapLookup]

/-- Claim C7: every MAC the generator produces, the fallback value included,
has the locally-administered bit (0x02) of the first octet set and the
multicast bit (0x01) clear: the first octet is always 0x52. -/
theorem generateRandomMAC_local_admin_unicast (randFail : Bool) (buf : Fin 6 → Nat) :
    ((generateRandomMAC randFail buf).headD 0) &&& 0x02 = 0x02 ∧
    ((generateRandomMAC randFail buf).headD 0) &&& 0x01 = 0 := by
  cases randFail <;> simp [generateRandomMAC] <;> decide

/-- Claim C4, counterexample: the standalone pipeline's clone step runs a
plain cp of the template, a full byte copy that does not declare the template
as a backing file. -/
theorem cloneDisk_main_full_copy :
    cloneDisk_main_cmd "template.qcow2" "disk.qcow2" = ["cp", "template.qcow2", "disk.qcow2"] ∧
    usesBackingFile (cloneDisk_main_cmd "template.qcow2" "disk.qcow2") "template.qcow2"
      = false := by
  constructor
  · rfl
  · decide

/-- Claim C4, amended: the library pipeline's cloneTemplateDisk runs qemu-img
create with the template as copy-on-write backing file (O(1) in the template
size), while the standalone pipeline's clone step copies the template in full
with cp. -/
theorem clone_policy_by_pipeline (templatePath diskPath : String) :
    usesBackingFile (cloneTemplateDisk_cmd templatePath diskPath) templatePath = true ∧
    cloneDisk_main_cmd templatePath diskPath = ["cp", templatePath, diskPath] := by
  refine ⟨?_, rfl⟩
  simp [usesBackingFile, cloneTemplateDisk_cmd, backingArg]

/-- Claim C1, counterexample: in the library pipeline
(internal/libvirt/vm_manager.go), a VM whose 5-minute IP wait expires is
handed to setVMError, so its final state is error, not running — at this
concrete input the record does not remain running. -/
theorem ipTimeout_hard_error_in_library_pipeline :
    (provisionFinish_libvirt sampleVM (Except.error "timeout waiting for IP address")
        false (Except.ok "") 7).state = VMStateError ∧
    (provisionFinish_libvirt sampleVM (Except.error "timeout waiting for IP address")
        false (Except.ok "") 7).state ≠ VMStateRunning := by
  decide

/-- Claim C1, amended: the two pipelines disagree on the deadline policy.  In
the standalone pipeline (cmd/manager/main.go) the expired IP wait is a soft
warning: the record ends running with the non-empty timeout diagnostic.  In
the library pipeline (internal/libvirt/vm_manager.go) the same expiry is a
hard failure: the record ends in state error with a non-empty timeout
diagnostic. -/
theorem ipTimeout_policy_by_pipeline (vm : VM) (ngrokRes ngrokRes2 : Except String String)
    (ngrokConfigured : Bool) (n t : Nat) :
    ((provisionFinish_main vm (Except.error "timeout waiting for IP address") ngrokRes n).state
        = VMStateRunning ∧
     (provisionFinish_main vm (Except.error "timeout waiting for IP address") ngrokRes n).error
        = "Warning: Could not determine IP address: timeout waiting for IP address" ∧
     (provisionFinish_main vm (Except.error "timeout waiting for IP address") ngrokRes n).error
        ≠ "") ∧
    ((provisionFinish_libvirt vm (Except.error "timeout waiting for IP address")
        ngrokConfigured ngrokRes2 t).state = VMStateError ∧
     (provisionFinish_libvirt vm (Except.error "timeout waiting for IP address")
        ngrokConfigured ngrokRes2 t).error
        = "Failed to get IP address: timeout waiting for IP address" ∧
     (provisionFinish_libvirt vm (Except.error "timeout waiting for IP address")
        ngrokConfigured ngrokRes2 t).error ≠ "") := by
  have hw : hasPrefixStr
      "Warning: Could not determine IP address: timeout waiting for IP address"
      "Warning:" = true := by decide
  refine ⟨⟨?_, ?_, ?_⟩, ?_, ?_, ?_⟩ <;>
    simp [provisionFinish_main, provisionFinish_libvirt, hw]

/-- Claim C8, counterexample: bit position 11 (bit 3 of the second octet) is
not one of the two flag bits (positions 0 and 1 of the first octet), yet it
is 0 for every random input, because the format string emits the fixed lead
52:54 and discards buf[0] and buf[1]; so not every non-flag bit of the
address depends on the random input. -/
theorem mac_bit_eleven_constant :
    (11 ≠ 0 ∧ 11 ≠ 1) ∧
    ∀ (randFail : Bool) (buf : Fin 6 → Nat),
      macBit (generateRandomMAC randFail buf) 11 = 0 := by
  refine ⟨by decide, ?_⟩
  intro randFail buf
  cases randFail <;> simp [generateRandomMAC, macBit]

/-- Claim C8, amended: the generator draws 32 random bits, not 46.  The first
two octets are always 52:54, and each bit of the last four octets (positions
16 to 47) does depend on the random input: all-zero and all-one byte draws
give it both values. -/
theorem mac_thirtytwo_random_bits (j : Nat) (h1 : 16 ≤ j) (h2 : j < 48) :
    (∀ (randFail : Bool) (buf : Fin 6 → Nat),
        (generateRandomMAC randFail buf).take 2 = [0x52, 0x54]) ∧
    ∃ b0 b1 : Fin 6 → Nat,
      macBit (generateRandomMAC false b0) j ≠ macBit (generateRandomMAC false b1) j := by
  constructor
  · intro randFail buf
    cases randFail <;> rfl
  · refine ⟨fun _ => 0, fun _ => 255, ?_⟩
    interval_cases j <;> decide

/-- Claim C8, amended-theorem witness at position 16. -/
theorem mac_thirtytwo_random_bits_witness :
    (∀ (randFail : Bool) (buf : Fin 6 → Nat),
        (generateRandomMAC randFail buf).take 2 = [0x52, 0x54]) ∧
    ∃ b0 b1 : Fin 6 → Nat,
      macBit (generateRandomMAC false b0) 16 ≠ macBit (generateRandomMAC false b1) 16 :=
  mac_thirtytwo_random_bits 16 (by decide) (by decide)

/-- Claim C2: CreateVM is idempotent per task.  If the task id already maps
to a record, CreateVM returns that record unchanged, leaves the store as it
was and does not launch a second pipeline; and, on any store whose task
index is consistent at the task id, two consecutive CreateVM calls return
records with identical id. -/
theorem createVM_idempotent (s : MgrState) (taskID f1 p1 f2 p2 : String) (n1 n2 : Nat)
    (hc : taskIndexConsistent s taskID = true) :
    (∀ vmID vm, mapLookup s.taskToVMMap taskID = some vmID →
        mapLookup s.vms vmID = some vm →
        CreateVM s taskID f1 p1 n1 = (some vm, s, false)) ∧
    ∃ vm1 vm2 : VM,
      (CreateVM s taskID f1 p1 n1).1 = some vm1 ∧
      (CreateVM (CreateVM s taskID f1 p1 n1).2.1 taskID f2 p2 n2).1 = some vm2 ∧
      vm1.id = vm2.id := by
  constructor
  · intro vmID vm hidx hvm
    simp [CreateVM, hidx, hvm]
  · match hidx : mapLookup s.taskToVMMap taskID with
    | some vmID =>
        have hc' : (mapLookup s.vms vmID).isSome = true := by
          unfold taskIndexConsistent at hc
          rw [hidx] at hc
          simpa using hc
        match hvm : mapLookup s.vms vmID with
        | some vm =>
            refine ⟨vm, vm, ?_, ?_, rfl⟩ <;> simp [CreateVM, hidx, hvm]
        | none => rw [hvm] at hc'; simp at hc'
    | none =>
        refine ⟨mkCreatedVM taskID f1 p1 n1, mkCreatedVM taskID f1 p1 n1, ?_, ?_, rfl⟩
        · simp [CreateVM, hidx]
        · simp [CreateVM, hidx, mapLookup_mapInsert_self]

/-- Claim C2, witness: on a store holding one record for task-1, CreateVM
returns the stored record, the unchanged store and no pipeline launch, and
two consecutive calls return the same id. -/
theorem createVM_idempotent_witness :
    taskIndexConsistent sampleStore "task-1" = true ∧
    CreateVM sampleStore "task-1" "f1" "q1" 1 = (some sampleVM, sampleStore, false) ∧
    ∃ vm1 vm2 : VM,
      (CreateVM sampleStore "task-1" "f1" "q1" 1).1 = some vm1 ∧
      (CreateVM (CreateVM sampleStore "task-1" "f1" "q1" 1).2.1 "task-1" "f2" "q2" 2).1
        = some vm2 ∧
      vm1.id = vm2.id :=
  ⟨by decide,
   (createVM_idempotent sampleStore "task-1" "f1" "q1" "f2" "q2" 1 2 (by decide)).1
     "vm-1" sampleVM (by decide) (by decide),
   (createVM_idempotent sampleStore "task-1" "f1" "q1" "f2" "q2" 1 2 (by decide)).2⟩

/-- Claim C3: ResetVM outside simulation mode destroys the record and rebuilds
it through CreateVM with the same task id.  For fresh identity draws (a new
uuid, hence a new derived name, and a new password), the record owned by the
task id afterwards has a different id, name and credential pair but the same
task id. -/
theorem resetVM_rebuild_fresh_identity (s : MgrState) (vmID : String) (vm : VM)
    (freshID password : String) (t1 t2 : Nat)
    (hvm : mapLookup s.vms vmID = some vm)
    (htask : vm.taskId ≠ "")
    (hid : freshID ≠ vm.id)
    (hname : "agent-vm-" ++ freshID.take 8 ≠ vm.name)
    (hpw : password ≠ vm.sshPassword) :
    (ResetVM s false vmID freshID password t1 t2).2 = true ∧
    ∃ newVM : VM,
      mapLookup (ResetVM s false vmID freshID password t1 t2).1.taskToVMMap vm.taskId
        = some freshID ∧
      mapLookup (ResetVM s false vmID freshID password t1 t2).1.vms freshID = some newVM ∧
      newVM.taskId = vm.taskId ∧
      newVM.id ≠ vm.id ∧
      newVM.name ≠ vm.name ∧
      (newVM.sshUsername, newVM.sshPassword) ≠ (vm.sshUsername, vm.sshPassword) := by
  refine ⟨?_, mkCreatedVM vm.taskId freshID password t2, ?_, ?_, rfl, hid, hname,
    fun h => hpw (congrArg Prod.snd h)⟩ <;>
    simp [ResetVM, hvm, DestroyVM, mapLookup_mapInsert_self, htask, CreateVM,
      mapLookup_mapErase_self]

/-- Claim C3, witness: resetting the sample store's only VM with fresh draws
rebuilds it under the same task id with a new id, name and password. -/
theorem resetVM_rebuild_fresh_identity_witness :
    (ResetVM sampleStore false "vm-1" "fresh001" "pw2" 3 4).2 = true ∧
    ∃ newVM : VM,
      mapLookup (ResetVM sampleStore false "vm-1" "fresh001" "pw2" 3 4).1.taskToVMMap
        sampleVM.taskId = some "fresh001" ∧
      mapLookup (ResetVM sampleStore false "vm-1" "fresh001" "pw2" 3 4).1.vms "fresh001"
        = some newVM ∧
      newVM.taskId = sampleVM.taskId ∧
      newVM.id ≠ sampleVM.id ∧
      newVM.name ≠ sampleVM.name ∧
      (newVM.sshUsername, newVM.sshPassword) ≠ (sampleVM.sshUsername, sampleVM.sshPassword) :=
  resetVM_rebuild_fresh_identity sampleStore "vm-1" sampleVM "fresh001" "pw2" 3 4
    (by decide) (by decide) (by decide) (by decide) (by decide)

/-- Claim C10: in simulation mode, ResetVM succeeds and replaces the record
with a copy whose state is running and whose updatedAt is the second clock
reading, all other fields (id, name, taskId, credentials, address, tunnel,
error, createdAt) unchanged; the task index is untouched.  The intermediate
save differs from the original only in state (resetting) and updatedAt as
well, as the definition shows. -/
theorem resetVM_simulation_frame (s : MgrState) (vmID freshID password : String) (vm : VM)
    (t1 t2 : Nat) (hvm : mapLookup s.vms vmID = some vm) :
    (ResetVM s true vmID freshID password t1 t2).2 = true ∧
    mapLookup (ResetVM s true vmID freshID password t1 t2).1.vms vmID
      = some { vm with state := VMStateRunning, updatedAt := t2 } ∧
    (ResetVM s true vmID freshID password t1 t2).1.taskToVMMap = s.taskToVMMap := by
  refine ⟨?_, ?_, ?_⟩ <;> simp [ResetVM, hvm, mapLookup_mapInsert_self]

/-- Claim C10, witness: a simulated reset of the sample store's VM yields the
same record with only state and updatedAt changed. -/
theorem resetVM_simulation_frame_witness :
    (ResetVM sampleStore true "vm-1" "fresh001" "pw2" 3 4).2 = true ∧
    mapLookup (ResetVM sampleStore true "vm-1" "fresh001" "pw2" 3 4).1.vms "vm-1"
      = some { sampleVM with state := VMStateRunning, updatedAt := 4 } ∧
    (ResetVM sampleStore true "vm-1" "fresh001" "pw2" 3 4).1.taskToVMMap
      = sampleStore.taskToVMMap :=
  resetVM_simulation_frame sampleStore "vm-1" "fresh001" "pw2" sampleVM 3 4 (by decide)

/-- Claim C5, counterexample: GetVM hands back the very pointer held in the
store's map (Go: return m.vms[vmID]), not a copy.  On the sample store,
mutating the record behind the returned pointer changes the record the store
holds for that id. -/
theorem getVM_returns_live_reference :
    GetVM_sim samplePtrStore "vm-1" = some 0 ∧
    storedRecord (writeVM samplePtrStore 0 { sampleVM with state := VMStateStopped }) "vm-1"
      ≠ storedRecord samplePtrStore "vm-1" := by
  decide

/-- Claim C5, amended: read operations return the live record pointers held
in the store's maps, not copies; writing through a pointer returned by GetVM
(or listed by ListVMs) is visible in the record the store holds. -/
theorem reads_alias_store_records (s : PtrStore) (vmID : String) (p : Nat) (v : VM)
    (h : GetVM_sim s vmID = some p) :
    storedRecord (writeVM s p v) vmID = some v ∧
    ∀ q ∈ ListVMs_ptrs s, derefVM (writeVM s q v) q = some v := by
  constructor
  · unfold GetVM_sim at h
    simp [storedRecord, writeVM, h, derefVM, mapLookup_mapInsert_self]
  · intro q _
    simp [derefVM, writeVM, mapLookup_mapInsert_self]

/-- Claim C5, amended-theorem witness on the sample pointer store. -/
theorem reads_alias_store_records_witness :
    storedRecord (writeVM samplePtrStore 0 { sampleVM with state := VMStateStopped }) "vm-1"
      = some { sampleVM with state := VMStateStopped } ∧
    ∀ q ∈ ListVMs_ptrs samplePtrStore,
      derefVM (writeVM samplePtrStore q { sampleVM with state := VMStateStopped }) q
        = some { sampleVM with state := VMStateStopped } :=
  reads_alias_store_records samplePtrStore "vm-1" 0
    { sampleVM with state := VMStateStopped } (by decide)

/-- Helper: unmarshalling a marshalled record recovers it exactly; omitempty
fields dropped on encode come back as their zero value "", matching what was
encoded. -/
theorem decodeVM_encodeVM (vm : VM) : decodeVM (encodeVM vm) = some vm := by
  obtain ⟨i, tk, nm, st, ip, ca, ua, er, ng, su, sp⟩ := vm
  by_cases h1 : ip = "" <;> by_cases h2 : er = "" <;> by_cases h3 : ng = "" <;>
    simp [decodeVM, encodeVM, getStrField, getNumField, mapLookup, h1, h2, h3]

/-- Claim C9: saving a record (which stamps updatedAt) and reading the
document back through the loader's parser yields a record whose id, taskId,
state and name equal those of the saved record exactly. -/
theorem save_load_roundtrip_fields (vm : VM) (now : Nat) :
    ∃ vm' : VM, decodeVM (saveVM vm now) = some vm' ∧
      vm'.id = vm.id ∧ vm'.taskId = vm.taskId ∧ vm'.state = vm.state ∧ vm'.name = vm.name :=
  ⟨{ vm with updatedAt := now }, decodeVM_encodeVM { vm with updatedAt := now },
   rfl, rfl, rfl, rfl⟩

/-- Claim C6: at startup, outside simulation mode and with a live connection,
a loaded record whose state is neither destroying nor error and whose name
has no matching live domain is marked error with the not-found-in-control-
plane diagnostic (the code string is "VM not found in libvirt"); a record
already destroying or in error is returned untouched, as is a record with a
matching live domain; and loadVMs stores the verified form of each parsed
record. -/
theorem loadVMs_marks_missing_vms (vm : VM) (live : List String) (now : Nat)
    (h1 : vm.state ≠ VMStateDestroying) (h2 : vm.state ≠ VMStateError)
    (h3 : live.contains vm.name = false) :
    verifyLoadedVM vm false true live now
      = { vm with state := VMStateError, error := "VM not found in libvirt",
                  updatedAt := now } ∧
    (∀ w : VM, w.state = VMStateDestroying ∨ w.state = VMStateError →
      verifyLoadedVM w false true live now = w) ∧
    (∀ w : VM, live.contains w.name = true → verifyLoadedVM w false true live now = w) ∧
    (∀ doc v, decodeVM doc = some v →
      loadVMs [doc] false true live now
        = addLoadedVM { vms := [], taskToVMMap := [] } (verifyLoadedVM v false true live now)) := by
  refine ⟨?_, ?_, ?_, ?_⟩
  · have h3' : vm.name ∉ live := by simpa using h3
    simp [verifyLoadedVM, h1, h2, h3']
  · intro w hw
    rcases hw with hw | hw <;> simp [verifyLoadedVM, hw, VMStateDestroying, VMStateError]
  · intro w hw
    have hw' : w.name ∈ live := by simpa using hw
    simp [verifyLoadedVM, hw']
  · intro doc v hdec
    simp [loadVMs, hdec]

/-- Claim C6, witness: with no live domains, the running sample record is
marked with the not-found diagnostic, a destroying record is left alone, and
loadVMs stores the verified parse of a saved document. -/
theorem loadVMs_marks_missing_vms_witness :
    verifyLoadedVM sampleVM false true [] 5
      = { sampleVM with state := VMStateError, error := "VM not found in libvirt",
                        updatedAt := 5 } ∧
    verifyLoadedVM { sampleVM with state := VMStateDestroying } false true [] 5
      = { sampleVM with state := VMStateDestroying } ∧
    loadVMs [saveVM sampleVM 5] false true [] 5
      = addLoadedVM { vms := [], taskToVMMap := [] }
          (verifyLoadedVM { sampleVM with updatedAt := 5 } false true [] 5) :=
  ⟨(loadVMs_marks_missing_vms sampleVM [] 5 (by decide) (by decide) (by decide)).1,
   (loadVMs_marks_missing_vms sampleVM [] 5 (by decide) (by decide) (by decide)).2.1
     { sampleVM with state := VMStateDestroying } (Or.inl rfl),
   (loadVMs_marks_missing_vms sampleVM [] 5 (by decide) (by decide) (by decide)).2.2.2
     (saveVM sampleVM 5) { sampleVM with updatedAt := 5 }
     (decodeVM_encodeVM { sampleVM with updatedAt := 5 })⟩
